import Mathlib

/-!
Shallow embedding of the eyelinkparser trial/phase state machine
(src/eyelinkparser/_eyelinkparser.py and src/eyelinkparser/_events.py),
together with theorems settling the frozen claims about it.

Python values are modelled as follows: tokens produced by the tokenizer
are a tagged variant of int, float and str (floats as rationals; the
tokenizer never produces non-finite floats); trace entries may in
addition be NaN (np.nan); raising is modelled by Except; warnings are
accumulated in the parser state.
-/

namespace Elp

/- The Batteries rational arithmetic operations are irreducible by
default, which blocks kernel evaluation of concrete runs; make them
semireducible within this file. -/
attribute [local semireducible] Rat.sub Rat.add Rat.mul

/-- A token produced by the tokenizer split: a Python int, float, or str. -/
inductive Token where
  | int (n : Int)
  | float (q : Rat)
  | str (s : String)
deriving DecidableEq, Repr

/-- Python equality between two tokens, mirroring the Python == operator:
an int and a float compare equal when they denote the same number, and
numbers never compare equal to strings. -/
def pyEq : Token → Token → Bool
  | .int a, .int b => a == b
  | .int a, .float b => (a : Rat) == b
  | .float a, .int b => a == (b : Rat)
  | .float a, .float b => a == b
  | .str a, .str b => a == b
  | _, _ => false

/-- The Python types that occur in the reference schemas of
EyeLinkParser.match: int, float, basestring (str), and list. -/
inductive PyType where
  | tInt | tFloat | tStr | tList
deriving DecidableEq, Repr

/-- Python isinstance of a token against one of the schema types. -/
def isinst : Token → PyType → Bool
  | .int _, .tInt => true
  | .float _, .tFloat => true
  | .str _, .tStr => true
  | _, _ => false

/-- One entry of a positional reference schema for EyeLinkParser.match:
a literal token, a tuple of literal tokens, a type, or a tuple of types.
The source only ever passes tuples that are homogeneous (all literals,
as in the start_phase message shapes, or all types, as in ANY_VALUE and
ANY_VALUES), so mixed tuples are not representable here: on a mixed
tuple the Python code would raise TypeError from isinstance. -/
inductive RefEntry where
  | lit (t : Token)
  | litSet (ts : List Token)
  | kind (k : PyType)
  | kindSet (ks : List PyType)
deriving DecidableEq, Repr

/-- ANY_VALUE = int, float, basestring (line 39 of _eyelinkparser.py). -/
def ANY_VALUE : RefEntry := .kindSet [.tInt, .tFloat, .tStr]

/-- ANY_VALUES = list, int, float, basestring (line 40): the final
any-remaining-tokens wildcard of EyeLinkParser.match. -/
def ANY_VALUES : RefEntry := .kindSet [.tList, .tInt, .tFloat, .tStr]

/-- One position of the match loop body (lines 231-246): literal match,
set (tuple membership) match, direct instance match, set instance match,
in that order; a token never equals a tuple or a type, and tuple
membership of a token among types always fails, so each schema entry
form reduces to the single branch given here. -/
def posOK (i1 : Token) : RefEntry → Bool
  | .lit t => pyEq i1 t
  | .litSet ts => ts.any (pyEq i1)
  | .kind k => isinst i1 k
  | .kindSet ks => ks.any (isinst i1)

/-- EyeLinkParser.match (lines 227-247): the length gate followed by the
positional loop over zip l ref. Python evaluates ref[-1] and would raise
IndexError when ref is empty and l is not; every call site passes a
nonempty schema, and the theorems below assume ref is nonempty. -/
def pymatch (l : List Token) (ref : List RefEntry) : Bool :=
  if l.length ≠ ref.length ∧ (ref.getLast? ≠ some ANY_VALUES ∨ ref.length > l.length) then
    false
  else
    (l.zip ref).all fun p => posOK p.1 p.2

/-! ## Event classifiers (src/eyelinkparser/_events.py) -/

/-- True when the character list is a nonempty run of ASCII digits. -/
def isDigits (cs : List Char) : Bool :=
  !cs.isEmpty && cs.all (·.isDigit)

/-- Strip one leading sign character. -/
def signStrip (cs : List Char) : List Char :=
  match cs with
  | c :: r => if c = '+' || c = '-' then r else cs
  | [] => []

/-- True when the (sign-stripped) character list is a decimal mantissa
accepted by Python float: digits, digits.digits, digits., or .digits. -/
def mantOK (cs : List Char) : Bool :=
  if cs.contains '.' then
    let a := cs.takeWhile (· ≠ '.')
    let b := (cs.dropWhile (· ≠ '.')).tail
    (!b.contains '.') && a.all (·.isDigit) && b.all (·.isDigit) &&
      (!a.isEmpty || !b.isEmpty)
  else
    isDigits cs

/-- True when the string is a finite decimal real literal: an optional
sign, a mantissa, and an optional exponent part. This is the class of
strings accepted as real numbers by fastnumbers.isreal with its default
settings, which reject the inf and nan spellings. Underscore separators
and non-ASCII digits are outside the scope of this model. -/
def strIsRealLit (s : String) : Bool :=
  let cs := signStrip s.data
  if cs.any (fun c => c = 'e' || c = 'E') then
    let m := cs.takeWhile (fun c => c ≠ 'e' && c ≠ 'E')
    let ex := (cs.dropWhile (fun c => c ≠ 'e' && c ≠ 'E')).tail
    mantOK m && isDigits (signStrip ex)
  else
    mantOK cs

/-- fastnumbers.isreal on a token: true on every int and float, and on
a string exactly when it spells a finite real number (_events.py line
36). Note that it places no sign condition on the value. -/
def isreal : Token → Bool
  | .int _ => true
  | .float _ => true
  | .str s => strIsRealLit s

/-- Positivity test of the fallback path of Event.assert_numeric
(lines 39-41): the value must be an int or float and strictly positive,
otherwise TypeError is raised. -/
def tokNumPos : Token → Bool
  | .int n => 0 < n
  | .float q => 0 < q
  | .str _ => false

/-- Event.assert_numeric (lines 32-41) as a predicate: true when no
TypeError is raised. With fastnumbers installed (fn = true) each indexed
token must satisfy isreal; without it, each must be a strictly positive
int or float. -/
def assertNumericOK (fn : Bool) (l : List Token) (idxs : List Nat) : Bool :=
  if fn then idxs.all fun i => isreal (l.getD i (.str ""))
  else idxs.all fun i => tokNumPos (l.getD i (.str ""))

/-- Python subtraction of two tokens: defined on numbers (int minus int
stays int, any float makes a float) and a TypeError (none) when either
side is a string. -/
def pySub : Token → Token → Option Token
  | .int a, .int b => some (.int (a - b))
  | .int a, .float b => some (.float ((a : Rat) - b))
  | .float a, .int b => some (.float (a - (b : Rat)))
  | .float a, .float b => some (.float (a - b))
  | _, _ => none

/-- A value appended to a trace accumulator: a token, or np.nan for a
missing-value marker. -/
inductive SVal where
  | tok (t : Token)
  | nan
deriving DecidableEq, Repr

/-- A Sample event (_events.py lines 88-121): timestamp, gaze position
and pupil size, with the missing markers replaced by np.nan. -/
structure Sample where
  t : Token
  x : SVal
  y : SVal
  ps : SVal
deriving DecidableEq, Repr

/-- Sample.match (line 121): 5, 6, 8 or 9 tokens whose first token is
not a string. Four-token lines are not samples. -/
def Sample.isMatch (l : List Token) : Bool :=
  (l.length == 5 || l.length == 6 || l.length == 8 || l.length == 9) &&
    (match l.head? with
     | some (.str _) => false
     | some _ => true
     | none => false)

/-- event(l, Sample) (lines 102-117 with the dispatcher of lines
158-167): none when the shape check or assert_numeric fails. The gaze
fields become np.nan on the dot marker, the pupil field on the dot
marker or a zero value. -/
def sample (fn : Bool) (l : List Token) : Option Sample :=
  if !Sample.isMatch l then none
  else if !assertNumericOK fn l [0] then none
  else
    let l1 := l.getD 1 (.str "")
    let l2 := l.getD 2 (.str "")
    let l3 := l.getD 3 (.str "")
    some { t := l.getD 0 (.str "")
           x := if pyEq l1 (.str ".") then .nan else .tok l1
           y := if pyEq l2 (.str ".") then .nan else .tok l2
           ps := if pyEq l3 (.int 0) || pyEq l3 (.str ".") then .nan else .tok l3 }

/-- A Fixation event (lines 63-85). -/
structure Fixation where
  x : Token
  y : Token
  ps : Token
  st : Token
  et : Token
  duration : Token
deriving DecidableEq, Repr

/-- Fixation.match (line 85): exactly 8 tokens starting with EFIX. -/
def Fixation.isMatch (l : List Token) : Bool :=
  l.length == 8 && pyEq (l.headD (.str "")) (.str "EFIX")

/-- event(l, Fixation): none when the shape check fails, assert_numeric
on indices 2..7 fails, or the duration subtraction et - st raises
TypeError (which the dispatcher swallows as no match). -/
def fixation (fn : Bool) (l : List Token) : Option Fixation :=
  if !Fixation.isMatch l then none
  else if !assertNumericOK fn l [2, 3, 4, 5, 6, 7] then none
  else
    match pySub (l.getD 3 (.str "")) (l.getD 2 (.str "")) with
    | none => none
    | some d =>
      some { x := l.getD 5 (.str ""), y := l.getD 6 (.str "")
             ps := l.getD 7 (.str ""), st := l.getD 2 (.str "")
             et := l.getD 3 (.str ""), duration := d }

/-- A Blink event (lines 44-60). -/
structure Blink where
  st : Token
  et : Token
  duration : Token
deriving DecidableEq, Repr

/-- Blink.match (line 60): exactly 5 tokens starting with EBLINK. -/
def Blink.isMatch (l : List Token) : Bool :=
  l.length == 5 && pyEq (l.headD (.str "")) (.str "EBLINK")

/-- event(l, Blink): none when the shape check or assert_numeric on
indices 2..4 fails. -/
def blink (fn : Bool) (l : List Token) : Option Blink :=
  if !Blink.isMatch l then none
  else if !assertNumericOK fn l [2, 3, 4] then none
  else
    some { st := l.getD 2 (.str ""), et := l.getD 3 (.str "")
           duration := l.getD 4 (.str "") }

/-! ## The trial/phase state machine (src/eyelinkparser/_eyelinkparser.py) -/

/-- A stored float value: a finite number or np.nan. -/
inductive FVal where
  | num (q : Rat)
  | nan
deriving DecidableEq, Repr

/-- Conversion of one accumulated value by np.array(trace, dtype=float).
String entries make numpy raise (modelled as none); the tokenizer split
converts every numeric spelling before it can reach an accumulator, so
only genuinely non-numeric strings are at stake here. -/
def npFloat : SVal → Option FVal
  | .tok (.int n) => some (.num n)
  | .tok (.float q) => some (.num q)
  | .tok (.str _) => none
  | .nan => some .nan

/-- np.array over a whole accumulator list. -/
def npArray (l : List SVal) : Option (List FVal) :=
  l.mapM npFloat

/-- Elementwise subtraction of the onset from a stored value (the
in-place minus of line 412); nan propagates. -/
def FVal.subI : FVal → Int → FVal
  | .num q, n => .num (q - n)
  | .nan, _ => .nan

/-- One column value of the trial record: a scalar token (onset and
offset timestamps), a joined string (var messages), or a numeric series
(trace columns). -/
inductive Cell where
  | scalar (t : Token)
  | strv (s : String)
  | series (vs : List FVal)
deriving DecidableEq, Repr

/-- Ordered column assignment: overwrite in place, else append. -/
def setCol : List (String × Cell) → String → Cell → List (String × Cell)
  | [], k, v => [(k, v)]
  | (k1, v1) :: r, k, v =>
    if k1 = k then (k, v) :: r else (k1, v1) :: setCol r k v

/-- Column lookup by name. -/
def getCol (cols : List (String × Cell)) (k : String) : Option Cell :=
  (cols.find? fun p => p.1 == k).map (·.2)

/-- The per-trial record (the one-row DataMatrix of parse_trial). -/
structure TrialDM where
  trialid : Option Token
  data_error : Nat
  cols : List (String × Cell)
deriving DecidableEq, Repr

def TrialDM.set (dm : TrialDM) (k : String) (v : Cell) : TrialDM :=
  { dm with cols := setCol dm.cols k v }

def TrialDM.has (dm : TrialDM) (k : String) : Bool :=
  (getCol dm.cols k).isSome

/-- The parser configuration options relevant to the state machine. -/
structure Config where
  maxtracelen : Option Nat
  traceprocessor : Option (String → List FVal → List FVal)
  phasefilter : Option (String → Bool)
  trialphase : Option String
  pupil_size : Bool
  gaze_pos : Bool
  time_trace : Bool
  fn : Bool

/-- The phase filter applied to a phase name (line 355): accept
everything when no filter is configured. -/
def okFilter (cfg : Config) (name : String) : Bool :=
  match cfg.phasefilter with
  | none => true
  | some f => f name

/-- The mutable parser state: current trial id, current phase, the ten
trace accumulators, the phase onset, the in-progress trial record, and
the warnings emitted so far. -/
structure PState where
  trialid : Option Token
  current_phase : Option String
  ptrace : List SVal
  xtrace : List SVal
  ytrace : List SVal
  ttrace : List SVal
  fixxlist : List SVal
  fixylist : List SVal
  fixstlist : List SVal
  fixetlist : List SVal
  blinkstlist : List SVal
  blinketlist : List SVal
  t_onset : Int
  trialdm : TrialDM
  warnings : List String
deriving DecidableEq, Repr

def warn (st : PState) (m : String) : PState :=
  { st with warnings := st.warnings ++ [m] }

/-- The ways the Python code can raise out of a parse: IndexError on a
short line, TypeError from incrementing a non-numeric trial id, a numpy
conversion error, UnboundLocalError on the post-loop use of l, and the
explicit duplicate-phase Exception of line 359. -/
inductive PyErr where
  | index
  | typeErr
  | npErr
  | unbound
  | dupPhase (name : String)
deriving DecidableEq, Repr

/-- Python percent-s formatting of a token. The message schemas restrict
every position this is applied to (phase names, variable names) to str,
so only the string case is reached; numeric formatting is approximated
by toString. -/
def pyStr : Token → String
  | .str s => s
  | .int n => toString n
  | .float q => toString q

/-- Extraction of a timestamp token that the schemas constrain to int. -/
def getInt : Token → Int
  | .int n => n
  | _ => 0

/-- The prefixes whose stored columns are rebased at lines 409-411. The
source spells the blink prefixes without their trailing underscore
(sic), while the columns are written under blinkstlist_ and
blinketlist_, so the blink list columns never pass this membership
test. -/
def rebasePrefixes : List String :=
  ["ttrace_", "fixstlist_", "fixetlist_", "blinkstlist", "blinketlist"]

/-- One iteration of the end_phase loop body (lines 390-412) for one
(tracelabel, column prefix, accumulator) triple: skip disabled signals,
convert with np.array, apply the trace processor to labelled traces,
truncate over-long traces with a warning, store the column, and rebase
it when the prefix is in rebasePrefixes and the trace is nonempty. -/
def endPhaseStep (cfg : Config) (ph : String) (onset : Int)
    (st : PState) (e : Option String × String × List SVal) :
    Except PyErr PState :=
  let lbl := e.1
  let pfx := e.2.1
  let trace := e.2.2
  if lbl = some "pupil" ∧ cfg.pupil_size = false then .ok st
  else if (lbl = some "xcoor" ∨ lbl = some "ycoor") ∧ cfg.gaze_pos = false then .ok st
  else if lbl = some "time" ∧ cfg.time_trace = false then .ok st
  else
    match npArray trace with
    | none => .error .npErr
    | some tr0 =>
      let tr1 := match lbl, cfg.traceprocessor with
        | some lb, some f => f lb tr0
        | _, _ => tr0
      let cut : Bool := match cfg.maxtracelen with
        | some n => tr1.length > n
        | none => false
      let st := if cut then
          warn st ("Trace " ++ ph ++ " is too long (" ++ toString tr1.length ++ " samples)")
        else st
      let tr2 := match cfg.maxtracelen with
        | some n => if tr1.length > n then tr1.take n else tr1
        | none => tr1
      let colname := pfx ++ ph
      let st := { st with trialdm := st.trialdm.set colname (.series tr2) }
      if tr2.length ≠ 0 ∧ rebasePrefixes.contains pfx then
        .ok { st with trialdm := st.trialdm.set colname (.series (tr2.map (FVal.subI · onset))) }
      else .ok st

/-- EyeLinkParser.end_phase (lines 375-421): store the offset timestamp
l[1] (IndexError when the line has fewer than two tokens), run the loop
over the ten accumulators, and leave the no-phase state. -/
def end_phase (cfg : Config) (l : List Token) (st : PState) : Except PyErr PState :=
  let ph := st.current_phase.getD "None"
  match l[1]? with
  | none => .error .index
  | some toff =>
    let st1 := { st with trialdm := st.trialdm.set ("t_offset_" ++ ph) (.scalar toff) }
    let entries : List (Option String × String × List SVal) :=
      [(some "pupil", "ptrace_", st.ptrace),
       (some "xcoor", "xtrace_", st.xtrace),
       (some "ycoor", "ytrace_", st.ytrace),
       (some "time", "ttrace_", st.ttrace),
       (none, "fixxlist_", st.fixxlist),
       (none, "fixylist_", st.fixylist),
       (none, "fixstlist_", st.fixstlist),
       (none, "fixetlist_", st.fixetlist),
       (none, "blinkstlist_", st.blinkstlist),
       (none, "blinketlist_", st.blinketlist)]
    match entries.foldlM (endPhaseStep cfg ph st.t_onset) st1 with
    | .error e => .error e
    | .ok st2 => .ok { st2 with current_phase := none }

/-- EyeLinkParser.start_phase (lines 348-373): force-close an open
phase with a warning, consult the phase filter, raise on a duplicate
phase name (detected through the presence of the ptrace column), then
reset the accumulators and record the onset. -/
def start_phase (cfg : Config) (l : List Token) (st : PState) : Except PyErr PState :=
  let name := pyStr (l.getD 3 (.str ""))
  let closed : Except PyErr PState :=
    if st.current_phase.isSome then
      end_phase cfg l (warn st ("Phase " ++ name ++ " started while phase " ++
        st.current_phase.getD "None" ++ " was still ongoing"))
    else .ok st
  match closed with
  | .error e => .error e
  | .ok st =>
    if okFilter cfg name = false then .ok st
    else
      let st := { st with current_phase := some name }
      if st.trialdm.has ("ptrace_" ++ name) then .error (.dupPhase name)
      else
        .ok { st with
          ptrace := [], xtrace := [], ytrace := [], ttrace := [],
          fixxlist := [], fixylist := [], fixstlist := [], fixetlist := [],
          blinkstlist := [], blinketlist := [],
          t_onset := getInt (l.getD 1 (.int 0)),
          trialdm := st.trialdm.set ("t_onset_" ++ name) (.scalar (l.getD 1 (.int 0))) }

/-- EyeLinkParser.parse_sample (lines 423-428). -/
def parse_sample (s : Sample) (st : PState) : PState :=
  { st with ttrace := st.ttrace ++ [.tok s.t], ptrace := st.ptrace ++ [s.ps],
            xtrace := st.xtrace ++ [s.x], ytrace := st.ytrace ++ [s.y] }

/-- EyeLinkParser.parse_fixation (lines 430-435). -/
def parse_fixation (f : Fixation) (st : PState) : PState :=
  { st with fixxlist := st.fixxlist ++ [.tok f.x], fixylist := st.fixylist ++ [.tok f.y],
            fixstlist := st.fixstlist ++ [.tok f.st], fixetlist := st.fixetlist ++ [.tok f.et] }

/-- EyeLinkParser.parse_blink (lines 437-440). -/
def parse_blink (b : Blink) (st : PState) : PState :=
  { st with blinkstlist := st.blinkstlist ++ [.tok b.st],
            blinketlist := st.blinketlist ++ [.tok b.et] }

/-- The message schema for start_phase and phase messages (line 447). -/
def startPhaseRef : List RefEntry :=
  [.lit (.str "MSG"), .kind .tInt, .litSet [.str "start_phase", .str "phase"], .kind .tStr]

/-- The message schema for end_phase and stop_phase messages (line 450). -/
def endPhaseRef : List RefEntry :=
  [.lit (.str "MSG"), .kind .tInt, .litSet [.str "end_phase", .str "stop_phase"], .kind .tStr]

/-- The message schema for var messages (line 340). -/
def varRef : List RefEntry :=
  [.lit (.str "MSG"), .kind .tInt, .lit (.str "var"), .kind .tStr, ANY_VALUES]

/-- The schema of a start_trial message with an explicit id (line 473). -/
def startTrialRefX : List RefEntry :=
  [.lit (.str "MSG"), .kind .tInt, .lit (.str "start_trial"), ANY_VALUE]

/-- The schema of a bare start_trial message (line 478). -/
def startTrialRefI : List RefEntry :=
  [.lit (.str "MSG"), .kind .tInt, .lit (.str "start_trial")]

/-- The schema of an end_trial or stop_trial message (line 490). -/
def endTrialRef : List RefEntry :=
  [.lit (.str "MSG"), .kind .tInt, .litSet [.str "end_trial", .str "stop_trial"]]

/-- EyeLinkParser.parse_phase (lines 442-468): phase boundary messages
first; unmatched lines fall through to the event classifiers, tried in
the order Sample, Fixation, Blink, while a phase is open. -/
def parse_phase (cfg : Config) (l : List Token) (st : PState) : Except PyErr PState :=
  let isMsg := pyEq (l.headD (.str "")) (.str "MSG")
  if isMsg ∧ pymatch l startPhaseRef then start_phase cfg l st
  else if isMsg ∧ pymatch l endPhaseRef then
    if st.current_phase ≠ some (pyStr (l.getD 3 (.str ""))) then
      .ok (warn st ("Trace " ++ pyStr (l.getD 3 (.str "")) ++
        " was ended while current phase was " ++ st.current_phase.getD "None"))
    else end_phase cfg l st
  else if st.current_phase = none then .ok st
  else
    match sample cfg.fn l with
    | some s => .ok (parse_sample s st)
    | none =>
      let st := match fixation cfg.fn l with
        | some f => parse_fixation f st
        | none => st
      let st := match blink cfg.fn l with
        | some b => parse_blink b st
        | none => st
      .ok st

/-- EyeLinkParser.parse_variable (lines 337-346): store a var message
as a scalar string column, warning on redefinition. -/
def parse_variable (l : List Token) (st : PState) : PState :=
  if !pymatch l varRef then st
  else
    let var := pyStr (l.getD 3 (.str ""))
    let val := String.intercalate " " ((l.drop 4).map pyStr)
    let st := if st.trialdm.has var then
        warn st ("Variable " ++ var ++ " defined twice in one trial")
      else st
    { st with trialdm := st.trialdm.set var (.strv val) }

/-- Python increment of the remembered trial id (line 482); TypeError
on a string id. -/
def pyAdd1 : Token → Option Token
  | .int n => some (.int (n + 1))
  | .float q => some (.float (q + 1))
  | .str _ => none

/-- EyeLinkParser.is_start_trial (lines 470-485): an explicit id is
taken from the message; a bare start_trial takes 0 on the first trial
and the remembered id plus one otherwise. Both shapes reset the current
phase. -/
def is_start_trial (l : List Token) (st : PState) : Except PyErr (PState × Bool) :=
  if pymatch l startTrialRefX then
    .ok ({ st with trialid := some (l.getD 3 (.str "")), current_phase := none }, true)
  else if pymatch l startTrialRefI then
    match st.trialid with
    | none => .ok ({ st with trialid := some (.int 0), current_phase := none }, true)
    | some t =>
      match pyAdd1 t with
      | some t1 => .ok ({ st with trialid := some t1, current_phase := none }, true)
      | none => .error .typeErr
  else .ok (st, false)

/-- EyeLinkParser.is_end_trial (lines 487-493): an end_trial or
stop_trial message clears the remembered trial id. -/
def is_end_trial (l : List Token) (st : PState) : PState × Bool :=
  if pymatch l endTrialRef then ({ st with trialid := none }, true) else (st, false)

/-- EyeLinkParser.parse_error (lines 293-301): an ERROR marker in the
third field raises a warning and reports true. -/
def parse_error (l : List Token) (st : PState) : PState × Bool :=
  if l.length > 2 ∧ pyEq (l.getD 2 (.str "")) (.str "ERROR") then
    (warn st ("data error: " ++ String.intercalate " " ((l.drop 2).map pyStr) ++
      " (timestamp: " ++ pyStr (l.getD 1 (.str "")) ++ ")"), true)
  else (st, false)

/-- One raw input line, as the pair of the result of the startswith MSG
test applied to the raw text (msg) and of its tokenization by split
(toks). -/
structure Line where
  msg : Bool
  toks : List Token
deriving DecidableEq, Repr

/-- The line loop of EyeLinkParser.parse_trial (lines 312-328): skip
empty lines with a warning, break on a data error or an end-trial
message, parse var messages, and feed every line to parse_phase. The
result carries the last line bound to l (none when no line was read)
and the lines remaining after the break. -/
def trialLoop (cfg : Config) : PState → Option (List Token) → List Line →
    Except PyErr (PState × Option (List Token) × List Line)
  | st, lastl, [] => .ok (st, lastl, [])
  | st, _, line :: rest =>
    let l := line.toks
    if l.isEmpty then trialLoop cfg (warn st "Empty line") (some l) rest
    else
      match parse_error l st with
      | (st, true) =>
        .ok (warn { st with trialdm := { st.trialdm with data_error := 1 } }
          "ending trial due to data error", some l, rest)
      | (st, false) =>
        if line.msg then
          match is_end_trial l st with
          | (st, true) => .ok (st, some l, rest)
          | (st, false) =>
            let st := parse_variable l st
            match parse_phase cfg l st with
            | .error e => .error e
            | .ok st => trialLoop cfg st (some l) rest
        else
          match parse_phase cfg l st with
          | .error e => .error e
          | .ok st => trialLoop cfg st (some l) rest

/-- EyeLinkParser.parse_trial (lines 303-335): create a fresh one-row
record carrying the current trial id, optionally auto-start the
configured trial phase, run the line loop, and at the end force-close a
still-open phase with a warning, reusing the last line read (an
UnboundLocalError when no line was ever read). -/
def parse_trial (cfg : Config) (st0 : PState) (lines : List Line) :
    Except PyErr (PState × List Line) :=
  let st1 := { st0 with trialdm := { trialid := st0.trialid, data_error := 0, cols := [] } }
  let started : Except PyErr PState :=
    match cfg.trialphase with
    | some tp => parse_phase cfg [.str "MSG", .int 0, .str "start_phase", .str tp] st1
    | none => .ok st1
  match started with
  | .error e => .error e
  | .ok st =>
    match trialLoop cfg st none lines with
    | .error e => .error e
    | .ok (st, lastl, rest) =>
      match st.current_phase with
      | some ph =>
        let st := warn st ("Trial ended while phase " ++ ph ++ " was still ongoing")
        match lastl with
        | none => .error .unbound
        | some l =>
          match end_phase cfg l st with
          | .error e => .error e
          | .ok st => .ok (st, rest)
      | none => .ok (st, rest)

/-- The file loop of EyeLinkParser.parse_file (lines 265-291): scan for
start-trial messages and delegate each to parse_trial, collecting the
trial records in order. The Nat argument is structural fuel; parse_file
passes the line count, which the loop never exhausts because each step
consumes at least one line. -/
def fileLoopF (cfg : Config) : Nat → PState → List Line →
    Except PyErr (List TrialDM × PState)
  | _, st, [] => .ok ([], st)
  | 0, st, _ :: _ => .ok ([], st)
  | fuel + 1, st, line :: rest =>
    if !line.msg then fileLoopF cfg fuel st rest
    else
      match is_start_trial line.toks st with
      | .error e => .error e
      | .ok (st, true) =>
        match parse_trial cfg st rest with
        | .error e => .error e
        | .ok (st, rest1) =>
          match fileLoopF cfg fuel st rest1 with
          | .error e => .error e
          | .ok (dms, stf) => .ok (st.trialdm :: dms, stf)
      | .ok (st, false) => fileLoopF cfg fuel st rest

/-- The parser state at the top of parse_file: no trial id, no phase,
empty accumulators and record. -/
def initState : PState :=
  { trialid := none, current_phase := none,
    ptrace := [], xtrace := [], ytrace := [], ttrace := [],
    fixxlist := [], fixylist := [], fixstlist := [], fixetlist := [],
    blinkstlist := [], blinketlist := [], t_onset := 0,
    trialdm := { trialid := none, data_error := 0, cols := [] }, warnings := [] }

/-- EyeLinkParser.parse_file on an already-read list of lines. -/
def parse_file (cfg : Config) (lines : List Line) : Except PyErr (List TrialDM × PState) :=
  fileLoopF cfg lines.length initState lines

/-- The list of trial records of a completed run. -/
def runRecords (r : Except PyErr (List TrialDM × PState)) : Option (List TrialDM) :=
  match r with
  | .ok (dms, _) => some dms
  | .error _ => none

/-- One column of one trial record of a completed run. -/
def recCol (r : Except PyErr (List TrialDM × PState)) (i : Nat) (k : String) : Option Cell :=
  match r with
  | .ok (dms, _) =>
    match dms[i]? with
    | some dm => getCol dm.cols k
    | none => none
  | .error _ => none

/-- The trial id of one trial record of a completed run. -/
def recId (r : Except PyErr (List TrialDM × PState)) (i : Nat) : Option Token :=
  match r with
  | .ok (dms, _) =>
    match dms[i]? with
    | some dm => dm.trialid
    | none => none
  | .error _ => none

/-- The warnings accumulated by a completed run. -/
def runWarnings (r : Except PyErr (List TrialDM × PState)) : List String :=
  match r with
  | .ok (_, st) => st.warnings
  | .error _ => []

/-- The error of a failed run. -/
def runErr (r : Except PyErr (List TrialDM × PState)) : Option PyErr :=
  match r with
  | .error e => some e
  | .ok _ => none

/-- The current phase of the final parser state of a completed run. -/
def runPhase : Except PyErr (List TrialDM × PState) → Option (Option String)
  | .ok (_, st) => some st.current_phase
  | .error _ => none

/-- Whether a single phase transition succeeded. -/
def epOk : Except PyErr PState → Bool
  | .ok _ => true
  | .error _ => false

/-- One column of the in-progress record after a phase transition. -/
def epCol (r : Except PyErr PState) (k : String) : Option Cell :=
  match r with
  | .ok st => getCol st.trialdm.cols k
  | .error _ => none

/-- The current phase after a phase transition. -/
def epPhase : Except PyErr PState → Option (Option String)
  | .ok st => some st.current_phase
  | .error _ => none

/-- The warnings after a phase transition. -/
def epWarns : Except PyErr PState → List String
  | .ok st => st.warnings
  | .error _ => []

/-- A configuration with a maximum trace length and a trace processor,
storing only the time trace. -/
def cfgMax (n : Nat) (f : String → List FVal → List FVal) : Config :=
  { maxtracelen := some n, traceprocessor := some f, phasefilter := none,
    trialphase := none, pupil_size := false, gaze_pos := false,
    time_trace := true, fn := false }

/-! ## The two tokenizer paths of EyeLinkParser.split (lines 499-517)

The primitive string-to-number parses are abstracted into an oracle per
field: what Python int() returns on the field, and what Python float()
returns on it (a finite rational, positive or negative infinity, NaN,
or a parse failure). Both paths are then defined as the source composes
these primitives. -/

/-- The outcome of Python float() on one field. -/
inductive FloatRes where
  | finite (q : Rat)
  | infRes
  | nanRes
  | err
deriving DecidableEq, Repr

/-- One whitespace-delimited field together with its primitive parse
outcomes: the raw text, the result of int(), and the result of
float(). The two tokenizer paths share this oracle; version-dependent
differences between the int parsers (underscore separators, non-ASCII
digits) are outside its scope. -/
structure Field where
  raw : String
  intRes : Option Int
  floatRes : FloatRes
deriving DecidableEq, Repr

/-- The fallback path of split (lines 504-517): try int(); then accept
float() results only after asserting the value is neither infinite nor
NaN (the assert failure is caught and the original string kept); any
failure keeps the original string. -/
def splitFieldBase (f : Field) : Token :=
  match f.intRes with
  | some n => .int n
  | none =>
    match f.floatRes with
    | .finite q => .float q
    | _ => .str f.raw

/-- The fastnumbers path of split (lines 501-503):
fastnumbers.fast_real(s, nan=u'nan', inf=u'inf'). Per the documented
semantics of fast_real: an int-parsable field gives an int; a float
result that is NaN or (plus or minus) infinity is substituted by the
keyword argument, here the literal strings nan and inf; a finite float
result whose value is integral is coerced to an int (the coerce option
of fast_real, default true since fastnumbers 2.0); other finite float
results give a float; unparsable fields keep the raw string. -/
def splitFieldFast (f : Field) : Token :=
  match f.intRes with
  | some n => .int n
  | none =>
    match f.floatRes with
    | .finite q => if q.den = 1 then .int q.num else .float q
    | .infRes => .str "inf"
    | .nanRes => .str "nan"
    | .err => .str f.raw

/-- The field 56.0: int() fails on it, float() gives the integral
finite value 56. -/
def fld56 : Field := { raw := "56.0", intRes := none, floatRes := .finite 56 }

/-! ## Concrete scenario inputs and configurations -/

/-- The default configuration: no downsampling or trace processing, no
maximum trace length, no phase filter, no automatic trial phase, all
three signal classes stored; fn selects the fallback tokenizer-side
event validation. -/
def cfgPlain : Config :=
  { maxtracelen := none, traceprocessor := none, phasefilter := none,
    trialphase := none, pupil_size := true, gaze_pos := true,
    time_trace := true, fn := false }

/-- The default configuration with pupil-size storage disabled. -/
def cfgNoPupil : Config := { cfgPlain with pupil_size := false }

/-- The default configuration with a phase filter installed. -/
def cfgFil (fl : String → Bool) : Config :=
  { cfgPlain with phasefilter := some fl }

/-- A configuration with the four boolean options chosen freely and
everything else as in cfgPlain. -/
def cfgBools (pupil gaze time fnb : Bool) : Config :=
  { maxtracelen := none, traceprocessor := none, phasefilter := none,
    trialphase := none, pupil_size := pupil, gaze_pos := gaze,
    time_trace := time, fn := fnb }

/-- The tokenized lines of the C1 scenario log. The four-token gaze
lines tokenize to an int and three floats under the fallback path (the
fastnumbers path would coerce the int-valued floats to ints, which
changes nothing below since the lines still have four tokens). -/
def c1lines : List Line :=
  [⟨true, [.str "MSG", .int 10, .str "start_trial", .int 1]⟩,
   ⟨true, [.str "MSG", .int 10, .str "start_phase", .str "reading"]⟩,
   ⟨false, [.int 100, .float 50, .float 60, .float 900]⟩,
   ⟨false, [.int 110, .float 51, .float 61, .float 905]⟩,
   ⟨true, [.str "MSG", .int 120, .str "end_phase", .str "reading"]⟩,
   ⟨true, [.str "MSG", .int 120, .str "end_trial"]⟩]

/-- A log with one trial whose phase (onset timestamp 10) contains one
five-token sample at timestamp 100, one fixation from 130 to 150, and
one blink from 100 to 110. -/
def c2lines : List Line :=
  [⟨true, [.str "MSG", .int 10, .str "start_trial", .int 1]⟩,
   ⟨true, [.str "MSG", .int 10, .str "start_phase", .str "reading"]⟩,
   ⟨false, [.int 100, .float 50, .float 60, .float 900, .str "..."]⟩,
   ⟨false, [.str "EFIX", .str "R", .int 130, .int 150, .int 20, .float 653, .float 557, .int 4710]⟩,
   ⟨false, [.str "EBLINK", .str "R", .int 100, .int 110, .int 10]⟩,
   ⟨true, [.str "MSG", .int 200, .str "end_phase", .str "reading"]⟩,
   ⟨true, [.str "MSG", .int 200, .str "end_trial"]⟩]

/-- A log with two bare start_trial/end_trial pairs. -/
def c3lines : List Line :=
  [⟨true, [.str "MSG", .int 1, .str "start_trial"]⟩,
   ⟨true, [.str "MSG", .int 2, .str "end_trial"]⟩,
   ⟨true, [.str "MSG", .int 3, .str "start_trial"]⟩,
   ⟨true, [.str "MSG", .int 4, .str "end_trial"]⟩]

/-- A log that closes phase foo and then starts a second phase with
the same name inside the same trial. -/
def c4lines : List Line :=
  [⟨true, [.str "MSG", .int 1, .str "start_trial", .int 1]⟩,
   ⟨true, [.str "MSG", .int 10, .str "start_phase", .str "foo"]⟩,
   ⟨true, [.str "MSG", .int 20, .str "end_phase", .str "foo"]⟩,
   ⟨true, [.str "MSG", .int 30, .str "start_phase", .str "foo"]⟩,
   ⟨true, [.str "MSG", .int 40, .str "end_phase", .str "foo"]⟩,
   ⟨true, [.str "MSG", .int 50, .str "end_trial"]⟩]

/-- A file that ends while the phase foo is open, its last line being
an empty (whitespace-only) line, which tokenizes to no tokens. -/
def c5lines : List Line :=
  [⟨true, [.str "MSG", .int 10, .str "start_trial", .int 1]⟩,
   ⟨true, [.str "MSG", .int 10, .str "start_phase", .str "foo"]⟩,
   ⟨false, []⟩]

/-- A file that ends while the phase foo is open, its last line being a
well-formed five-token sample. -/
def c5log (t0 t1 : Int) (x y p : Rat) : List Line :=
  [⟨true, [.str "MSG", .int t0, .str "start_trial", .int 1]⟩,
   ⟨true, [.str "MSG", .int t0, .str "start_phase", .str "foo"]⟩,
   ⟨false, [.int t1, .float x, .float y, .float p, .str "..."]⟩]

/-- An EFIX-shaped line whose six positional numeric fields are not all
positive. -/
def c7cex : List Token :=
  [.str "EFIX", .str "R", .int (-1), .int (-2), .int 5, .int (-3), .int (-4), .int (-5)]

/-- A parser state with the phase ph open: onset as given, the ten
accumulators holding the given finite float values, a fresh record and
no warnings yet. -/
def stOpen (ph : String) (onset : Int)
    (pp xx yy tt fx fy fs fe bs be : List Rat) : PState :=
  { trialid := some (.int 1), current_phase := some ph,
    ptrace := pp.map fun q => .tok (.float q),
    xtrace := xx.map fun q => .tok (.float q),
    ytrace := yy.map fun q => .tok (.float q),
    ttrace := tt.map fun q => .tok (.float q),
    fixxlist := fx.map fun q => .tok (.float q),
    fixylist := fy.map fun q => .tok (.float q),
    fixstlist := fs.map fun q => .tok (.float q),
    fixetlist := fe.map fun q => .tok (.float q),
    blinkstlist := bs.map fun q => .tok (.float q),
    blinketlist := be.map fun q => .tok (.float q),
    t_onset := onset,
    trialdm := { trialid := some (.int 1), data_error := 0, cols := [] },
    warnings := [] }

/-! ## Valid trial blocks for claim C3 -/

/-- The header of one trial block: a start_trial message with or
without an explicit id token. -/
inductive Hdr where
  | explicitId (ts : Int) (id : Token)
  | implicitId (ts : Int)

/-- One valid start_trial/end_trial pair with its body lines. -/
structure Block where
  hdr : Hdr
  body : List Line
  endTs : Int

/-- The rendered header line of a block. -/
def hdrLine : Hdr → Line
  | .explicitId ts id => ⟨true, [.str "MSG", .int ts, .str "start_trial", id]⟩
  | .implicitId ts => ⟨true, [.str "MSG", .int ts, .str "start_trial"]⟩

/-- The trial id the parser assigns to a block in a fully paired log:
the explicit id when the header carries one, else 0, because
is_end_trial clears the remembered id before the next bare header is
seen. -/
def hdrId : Hdr → Token
  | .explicitId _ id => id
  | .implicitId _ => .int 0

/-- A body line that does not interfere with trial bookkeeping: not a
message line, nonempty, its first token not the string MSG, and no
ERROR marker in the third field. -/
def goodBody (ln : Line) : Bool :=
  !ln.msg && !ln.toks.isEmpty && !pyEq (ln.toks.headD (.str "")) (.str "MSG") &&
    !(decide (ln.toks.length > 2) && pyEq (ln.toks.getD 2 (.str "")) (.str "ERROR"))

/-- The rendered lines of one block: header, body, end_trial. -/
def renderBlock (b : Block) : List Line :=
  hdrLine b.hdr :: b.body ++ [⟨true, [.str "MSG", .int b.endTs, .str "end_trial"]⟩]

/-- The rendered lines of a list of blocks. -/
def renderBlocks (bs : List Block) : List Line :=
  (bs.map renderBlock).flatten

/-- Three valid trial blocks: a bare trial with one sample-shaped body
line, a trial with explicit id 7, and another bare trial. -/
def c3blocks : List Block :=
  [⟨.implicitId 1, [⟨false, [.int 100, .float 1, .float 2, .float 3, .str "..."]⟩], 2⟩,
   ⟨.explicitId 3 (.int 7), [], 4⟩,
   ⟨.implicitId 5, [], 6⟩]

/-- True on every token a split-produced token sequence can contain: a
string token left by split never spells a finite real number, because
split would have converted it. -/
def splitTok : Token → Bool
  | .str s => !strIsRealLit s
  | _ => true

/-- True on int and float tokens. -/
def isNumTok : Token → Bool
  | .str _ => false
  | _ => true

/-- CLAIM C6: the pattern matcher returns true only if the sequence
length equals the schema length, except when the final schema entry is
the any-remaining-tokens wildcard ANY_VALUES, in which case the sequence
may be longer but never shorter; and each schema position must be
satisfied by its token (the wildcard entry itself is satisfied by every
token, so only non-wildcard positions constrain the sequence). The
matcher is a pure function of its two arguments, so it has no side
effects by construction. -/
theorem C6_match_characterization (l : List Token) (ref : List RefEntry)
    (href : ref ≠ []) :
    pymatch l ref = true ↔
      ((l.length = ref.length ∨
        (ref.getLast? = some ANY_VALUES ∧ ref.length ≤ l.length)) ∧
       ∀ p ∈ l.zip ref, posOK p.1 p.2 = true) := by
  unfold pymatch
  split
  · rename_i hcond
    constructor
    · intro h; exact absurd h (by simp)
    · rintro ⟨hlen, _⟩
      rcases hcond with ⟨hne, hrest⟩
      rcases hlen with h | ⟨hlast, hle⟩
      · exact absurd h hne
      · rcases hrest with h | h
        · exact absurd hlast h
        · omega
  · rename_i hcond
    rw [List.all_eq_true]
    constructor
    · intro h
      refine ⟨?_, h⟩
      by_cases hlen : l.length = ref.length
      · exact Or.inl hlen
      · right
        constructor
        · by_contra hlast
          exact hcond ⟨hlen, Or.inl hlast⟩
        · by_contra hgt
          exact hcond ⟨hlen, Or.inr (by omega)⟩
    · exact fun h => h.2

/-- Witness for C6: the schema of the start_trial message with an
explicit id, matched against a concrete tokenized line. -/
theorem C6_match_characterization_witness :
    ([Token.str "MSG", Token.int 6735155, Token.str "start_trial", Token.int 1].length =
      [RefEntry.lit (.str "MSG"), RefEntry.kind .tInt,
       RefEntry.lit (.str "start_trial"), ANY_VALUE].length ∨
     ([RefEntry.lit (.str "MSG"), RefEntry.kind .tInt,
       RefEntry.lit (.str "start_trial"), ANY_VALUE].getLast? = some ANY_VALUES ∧
      ([RefEntry.lit (.str "MSG"), RefEntry.kind .tInt,
        RefEntry.lit (.str "start_trial"), ANY_VALUE] : List RefEntry).length ≤
        [Token.str "MSG", Token.int 6735155, Token.str "start_trial", Token.int 1].length)) ∧
    ∀ p ∈ [Token.str "MSG", Token.int 6735155, Token.str "start_trial", Token.int 1].zip
      [RefEntry.lit (.str "MSG"), RefEntry.kind .tInt,
       RefEntry.lit (.str "start_trial"), ANY_VALUE], posOK p.1 p.2 = true := by
  have h := (C6_match_characterization
    [Token.str "MSG", Token.int 6735155, Token.str "start_trial", Token.int 1]
    [RefEntry.lit (.str "MSG"), RefEntry.kind .tInt,
     RefEntry.lit (.str "start_trial"), ANY_VALUE] (by decide)).mp (by decide)
  exact h

/-- CLAIM C1 counterexample: parsing the scenario log produces one
trial record with id 1, but its ttrace_reading column is empty, not
the claimed [0, 10]: the four-token gaze lines are not recognized as
samples, since Sample.match requires 5, 6, 8 or 9 tokens. -/
theorem C1_counterexample :
    (runRecords (parse_file cfgPlain c1lines)).map List.length = some 1 ∧
    recId (parse_file cfgPlain c1lines) 0 = some (.int 1) ∧
    recCol (parse_file cfgPlain c1lines) 0 "ttrace_reading" = some (.series []) ∧
    Cell.series [] ≠ Cell.series [.num 0, .num 10] := by decide

/-- CLAIM C1 as amended: the scenario log produces exactly one trial
record with id 1; the phase reading is opened at 10 and closed at 120,
and the four trace columns exist but are empty, because the four-token
data lines are not classified as samples. -/
theorem C1_amended_scenario :
    (runRecords (parse_file cfgPlain c1lines)).map List.length = some 1 ∧
    recId (parse_file cfgPlain c1lines) 0 = some (.int 1) ∧
    recCol (parse_file cfgPlain c1lines) 0 "t_onset_reading" = some (.scalar (.int 10)) ∧
    recCol (parse_file cfgPlain c1lines) 0 "t_offset_reading" = some (.scalar (.int 120)) ∧
    recCol (parse_file cfgPlain c1lines) 0 "ttrace_reading" = some (.series []) ∧
    recCol (parse_file cfgPlain c1lines) 0 "xtrace_reading" = some (.series []) ∧
    recCol (parse_file cfgPlain c1lines) 0 "ytrace_reading" = some (.series []) ∧
    recCol (parse_file cfgPlain c1lines) 0 "ptrace_reading" = some (.series []) := by decide

/-- CLAIM C2 counterexample: in a phase with onset 10 whose first
sample has timestamp 100 and whose blink runs from 100 to 110, the
stored time trace starts at 90 (the onset, not the first recorded
timestamp, maps to 0), the fixation start list is rebased (130 is
stored as 120), and the blink start and end lists are stored without
any rebasing (100 and 110, not 90 and 100). -/
theorem C2_counterexample :
    recCol (parse_file cfgPlain c2lines) 0 "ttrace_reading" = some (.series [.num 90]) ∧
    FVal.num 90 ≠ FVal.num 0 ∧
    recCol (parse_file cfgPlain c2lines) 0 "fixstlist_reading" = some (.series [.num 120]) ∧
    recCol (parse_file cfgPlain c2lines) 0 "blinkstlist_reading" = some (.series [.num 100]) ∧
    recCol (parse_file cfgPlain c2lines) 0 "blinketlist_reading" = some (.series [.num 110]) ∧
    Cell.series [FVal.num 100] ≠ Cell.series [FVal.num 90] := by decide

/-- CLAIM C3 counterexample: two bare start_trial/end_trial pairs
produce trial ids 0 and 0, not 0 and 1: is_end_trial clears the
remembered id, so the second bare start_trial starts over at 0. -/
theorem C3_counterexample :
    (runRecords (parse_file cfgPlain c3lines)).map List.length = some 2 ∧
    recId (parse_file cfgPlain c3lines) 0 = some (.int 0) ∧
    recId (parse_file cfgPlain c3lines) 1 = some (.int 0) ∧
    Token.int 0 ≠ Token.int 1 := by decide

/-- CLAIM C4 counterexample: with pupil-size storage disabled, reusing
the phase name foo inside one trial raises nothing: the run succeeds,
produces one record, and the reopened phase overwrote t_onset_foo with
the second onset 30; the duplicate test of start_phase keys on the
ptrace column, which is never created when pupil_size is off. -/
theorem C4_counterexample :
    runErr (parse_file cfgNoPupil c4lines) = none ∧
    (runRecords (parse_file cfgNoPupil c4lines)).map List.length = some 1 ∧
    recCol (parse_file cfgNoPupil c4lines) 0 "t_onset_foo" = some (.scalar (.int 30)) := by decide

/-- CLAIM C4 as amended: reusing a closed phase name within one trial
raises the duplicate-phase exception exactly when pupil-size traces
are stored (the default); with pupil_size disabled the reuse passes
undetected and the phase is silently reopened, whatever the other
boolean options are. -/
theorem C4_amended : ∀ g t f : Bool,
    runErr (parse_file (cfgBools true g t f) c4lines) = some (.dupPhase "foo") ∧
    runErr (parse_file (cfgBools false g t f) c4lines) = none ∧
    recCol (parse_file (cfgBools false g t f) c4lines) 0 "t_onset_foo" =
      some (.scalar (.int 30)) := by decide

/-- CLAIM C5 counterexample: a file ending in an empty line while a
phase is open raises (IndexError: the forced end_phase reads the
timestamp field l[1] of the last line read, which has no tokens), so
the end-of-file force-finalization is not raise-free. -/
theorem C5_counterexample :
    runErr (parse_file cfgPlain c5lines) = some .index := by decide

/-- CLAIM C7 counterexample: with the fastnumbers path active, an
EFIX-shaped sequence whose positional numeric fields are negative is
still constructed: fastnumbers.isreal checks realness, not positivity,
so construction succeeding is not equivalent to the six fields being
positive. -/
theorem C7_counterexample :
    (fixation true c7cex).isSome = true ∧
    c7cex.getD 2 (.str "") = .int (-1) ∧
    tokNumPos (.int (-1)) = false := by decide

/-- CLAIM C9 counterexample: on the field 56.0 the fallback tokenizer
produces the float 56.0 while the fastnumbers path coerces the
int-valued float to the int 56, so the two paths do not classify every
field identically. -/
theorem C9_counterexample :
    splitFieldBase fld56 = .float 56 ∧
    splitFieldFast fld56 = .int 56 ∧
    Token.float 56 ≠ Token.int 56 := by decide

/-- CLAIM C9 as amended: fields parsed by int() are ints on both
paths; fields whose float value is infinite or NaN are kept as strings
on both paths, the fallback keeping the original spelling while
fastnumbers substitutes the canonical strings inf and nan; and the two
paths agree on every field except possibly those that int() rejects
but float() parses as an int-valued finite number (float versus
coerced int) or as infinite or NaN (original versus canonical
string). -/
theorem C9_amended (fld : Field)
    (hco : ∀ n : Int, fld.intRes = some n → fld.floatRes = .finite (n : Rat)) :
    (∀ n : Int, fld.intRes = some n →
      splitFieldBase fld = .int n ∧ splitFieldFast fld = .int n) ∧
    ((fld.floatRes = .infRes ∨ fld.floatRes = .nanRes) →
      splitFieldBase fld = .str fld.raw ∧
      (splitFieldFast fld = .str "inf" ∨ splitFieldFast fld = .str "nan")) ∧
    (splitFieldBase fld = splitFieldFast fld ∨
      (fld.intRes = none ∧
        ((∃ q, fld.floatRes = .finite q ∧ q.den = 1) ∨
         fld.floatRes = .infRes ∨ fld.floatRes = .nanRes))) := by
  obtain ⟨raw, ir, fr⟩ := fld
  cases ir with
  | some n =>
    have hfr := hco n rfl
    simp only at hfr
    subst hfr
    refine ⟨?_, ?_, ?_⟩
    · intro m hm
      simp only [Option.some.injEq] at hm
      subst hm
      exact ⟨rfl, rfl⟩
    · intro h; rcases h with h | h <;> simp at h
    · left; rfl
  | none =>
    refine ⟨?_, ?_, ?_⟩
    · intro m hm; simp at hm
    · intro h
      rcases h with h | h
      · simp only at h; subst h
        exact ⟨rfl, Or.inl rfl⟩
      · simp only at h; subst h
        exact ⟨rfl, Or.inr rfl⟩
    · cases fr with
      | finite q =>
        by_cases hq : q.den = 1
        · right; exact ⟨rfl, Or.inl ⟨q, rfl, hq⟩⟩
        · left
          simp [splitFieldBase, splitFieldFast, hq]
      | infRes => right; exact ⟨rfl, Or.inr (Or.inl rfl)⟩
      | nanRes => right; exact ⟨rfl, Or.inr (Or.inr rfl)⟩
      | err => left; rfl

/-- Witness for C9: the theorem applied to the field 56.0, whose
coherence hypothesis is vacuous since int() fails on it. -/
theorem C9_amended_witness :
    splitFieldBase fld56 = splitFieldFast fld56 ∨
      (fld56.intRes = none ∧
        ((∃ q, fld56.floatRes = .finite q ∧ q.den = 1) ∨
         fld56.floatRes = .infRes ∨ fld56.floatRes = .nanRes)) :=
  (C9_amended fld56 (fun _ h => nomatch h)).2.2

/-! ## Evaluation lemmas for np.array conversion -/

/-- np.array of an empty accumulator. -/
lemma npArray_nil : npArray [] = some [] := rfl

/-- np.array of an accumulator, one value at a time. -/
lemma npArray_cons (a : SVal) (l : List SVal) :
    npArray (a :: l) = (npFloat a).bind fun b => (npArray l).map (b :: ·) := by
  rw [npArray, npArray, List.mapM_cons]
  cases npFloat a <;> cases h : List.mapM npFloat l <;>
    simp [h, Option.map_eq_map, Option.map]

/-- np.array of an accumulator of finite float tokens. -/
lemma npArray_floats (l : List Rat) :
    npArray (l.map fun q => SVal.tok (.float q)) = some (l.map FVal.num) := by
  induction l with
  | nil => rfl
  | cons a l ih =>
    simp only [List.map_cons, npArray, List.mapM_cons, npFloat] at ih ⊢
    rw [ih]
    rfl

/-- np.array of a nonempty accumulator of finite float tokens. -/
lemma npArray_floats_cons (a : Rat) (l : List Rat) :
    npArray (SVal.tok (.float a) :: l.map fun q => SVal.tok (.float q)) =
      some (.num a :: l.map FVal.num) := by
  simpa using npArray_floats (a :: l)

/-- CLAIM C2 as amended: closing a phase stores the timestamp trace and
the fixation start and end lists rebased by the phase onset (the
timestamp of the start_phase message, so the onset maps to 0 and the
first recorded timestamp maps to its offset from the onset), while the
blink start and end lists are stored without rebasing: the prefix tuple
of the source spells them without the trailing underscore, so they
never pass the rebase membership test. Non-time columns such as the
pupil trace are stored unrebased as well, and the phase is left. -/
theorem C2_amended (onset : Int) (t2 : Token)
    (pp xx yy tt fx fy fs fe bs be : List Rat) :
    epOk (end_phase cfgPlain [.str "MSG", t2]
      (stOpen "reading" onset pp xx yy tt fx fy fs fe bs be)) = true ∧
    epPhase (end_phase cfgPlain [.str "MSG", t2]
      (stOpen "reading" onset pp xx yy tt fx fy fs fe bs be)) = some none ∧
    epCol (end_phase cfgPlain [.str "MSG", t2]
      (stOpen "reading" onset pp xx yy tt fx fy fs fe bs be)) "t_offset_reading" =
      some (.scalar t2) ∧
    epCol (end_phase cfgPlain [.str "MSG", t2]
      (stOpen "reading" onset pp xx yy tt fx fy fs fe bs be)) "ttrace_reading" =
      some (.series (tt.map fun q => .num (q - onset))) ∧
    epCol (end_phase cfgPlain [.str "MSG", t2]
      (stOpen "reading" onset pp xx yy tt fx fy fs fe bs be)) "fixstlist_reading" =
      some (.series (fs.map fun q => .num (q - onset))) ∧
    epCol (end_phase cfgPlain [.str "MSG", t2]
      (stOpen "reading" onset pp xx yy tt fx fy fs fe bs be)) "fixetlist_reading" =
      some (.series (fe.map fun q => .num (q - onset))) ∧
    epCol (end_phase cfgPlain [.str "MSG", t2]
      (stOpen "reading" onset pp xx yy tt fx fy fs fe bs be)) "blinkstlist_reading" =
      some (.series (bs.map FVal.num)) ∧
    epCol (end_phase cfgPlain [.str "MSG", t2]
      (stOpen "reading" onset pp xx yy tt fx fy fs fe bs be)) "blinketlist_reading" =
      some (.series (be.map FVal.num)) ∧
    epCol (end_phase cfgPlain [.str "MSG", t2]
      (stOpen "reading" onset pp xx yy tt fx fy fs fe bs be)) "ptrace_reading" =
      some (.series (pp.map FVal.num)) := by
  rcases tt with _ | ⟨a, tt⟩ <;> rcases fs with _ | ⟨b, fs⟩ <;> rcases fe with _ | ⟨c, fe⟩ <;>
    simp [end_phase, endPhaseStep, stOpen, npArray_floats, npArray_nil, npArray_floats_cons,
      epOk, epCol, epPhase, getCol, setCol, TrialDM.set, List.foldlM, cfgPlain,
      Except.instMonad, Except.bind, Except.pure, rebasePrefixes, FVal.subI, Function.comp]

/-- CLAIM C8: with a configured maximum trace length N, a trace whose
processed length M exceeds N is stored with exactly N entries and a
too-long warning is emitted, while a trace with M at most N is stored
whole, with its length unchanged and no warning. Stated for the time
trace of a phase under an arbitrary trace processor. -/
theorem C8_maxtracelen (n : Nat) (f : String → List FVal → List FVal) (onset : Int)
    (t2 : Token) (tt : List Rat) :
    ((f "time" (tt.map FVal.num)).length > n →
      epCol (end_phase (cfgMax n f) [.str "MSG", t2]
          (stOpen "reading" onset [] [] [] tt [] [] [] [] [] [])) "ttrace_reading" =
        some (.series (((f "time" (tt.map FVal.num)).take n).map (FVal.subI · onset))) ∧
      (((f "time" (tt.map FVal.num)).take n).map (FVal.subI · onset)).length = n ∧
      ("Trace reading is too long (" ++ toString (f "time" (tt.map FVal.num)).length ++
          " samples)") ∈ epWarns (end_phase (cfgMax n f) [.str "MSG", t2]
          (stOpen "reading" onset [] [] [] tt [] [] [] [] [] []))) ∧
    ((f "time" (tt.map FVal.num)).length ≤ n →
      epCol (end_phase (cfgMax n f) [.str "MSG", t2]
          (stOpen "reading" onset [] [] [] tt [] [] [] [] [] [])) "ttrace_reading" =
        some (.series ((f "time" (tt.map FVal.num)).map (FVal.subI · onset))) ∧
      ((f "time" (tt.map FVal.num)).map (FVal.subI · onset)).length =
        (f "time" (tt.map FVal.num)).length ∧
      epWarns (end_phase (cfgMax n f) [.str "MSG", t2]
          (stOpen "reading" onset [] [] [] tt [] [] [] [] [] [])) = []) := by
  constructor
  · intro hgt
    have key : epCol (end_phase (cfgMax n f) [.str "MSG", t2]
          (stOpen "reading" onset [] [] [] tt [] [] [] [] [] [])) "ttrace_reading" =
        some (.series (((f "time" (tt.map FVal.num)).take n).map (FVal.subI · onset))) ∧
        ("Trace reading is too long (" ++ toString (f "time" (tt.map FVal.num)).length ++
          " samples)") ∈ epWarns (end_phase (cfgMax n f) [.str "MSG", t2]
          (stOpen "reading" onset [] [] [] tt [] [] [] [] [] [])) := by
      by_cases htr : (f "time" (tt.map FVal.num)).take n = []
      · rw [List.take_eq_nil_iff] at htr
        rcases htr with hn | hfe
        · subst hn
          simp [end_phase, endPhaseStep, stOpen, npArray_floats, npArray_nil,
            npArray_floats_cons, epCol, epWarns, getCol, setCol, TrialDM.set,
            List.foldlM, cfgMax, Except.instMonad, Except.bind, Except.pure,
            rebasePrefixes, FVal.subI, Function.comp, warn, hgt]
        · rw [hfe] at hgt
          simp at hgt
      · rw [List.take_eq_nil_iff] at htr
        push_neg at htr
        simp [end_phase, endPhaseStep, stOpen, npArray_floats, npArray_nil,
          npArray_floats_cons, epCol, epWarns, getCol, setCol, TrialDM.set,
          List.foldlM, cfgMax, Except.instMonad, Except.bind, Except.pure,
          rebasePrefixes, FVal.subI, Function.comp, warn, hgt, htr.1, htr.2]
    refine ⟨key.1, ?_, key.2⟩
    simp [List.length_take]
    omega
  · intro hle
    have hc : ¬((f "time" (tt.map FVal.num)).length > n) := by omega
    by_cases hfe : f "time" (tt.map FVal.num) = [] <;>
      simp [end_phase, endPhaseStep, stOpen, npArray_floats, npArray_nil,
        npArray_floats_cons, epCol, epWarns, getCol, setCol, TrialDM.set,
        List.foldlM, cfgMax, Except.instMonad, Except.bind, Except.pure,
        rebasePrefixes, FVal.subI, Function.comp, warn, hc, hfe]

/-- Witness for C8: a two-entry time trace against a maximum length of
one, under the identity trace processor. -/
theorem C8_maxtracelen_witness :
    ((fun (_ : String) (l : List FVal) => l) "time"
        (([5, 7] : List Rat).map FVal.num)).length > 1 ∧
    epCol (end_phase (cfgMax 1 fun _ l => l) [.str "MSG", .int 0]
        (stOpen "reading" 0 [] [] [] [5, 7] [] [] [] [] [] [])) "ttrace_reading" =
      some (.series ((((fun (_ : String) (l : List FVal) => l) "time"
        (([5, 7] : List Rat).map FVal.num)).take 1).map (FVal.subI · 0))) :=
  ⟨by decide, ((C8_maxtracelen 1 (fun _ l => l) 0 (.int 0) [5, 7]).1 (by decide)).1⟩

/-- CLAIM C10: when start_phase is invoked while the phase foo is open
and the configured filter rejects the new name bar, the open phase is
still force-closed first, with the warning and its trace columns
stored; afterwards no phase is open and the rejected phase was not
opened (no t_onset_bar column appears). -/
theorem C10_filter_forcecloses (fl : String → Bool) (hrej : fl "bar" = false)
    (ts onset : Int) (pp xx yy tt fx fy fs fe bs be : List Rat) :
    epOk (start_phase (cfgFil fl) [.str "MSG", .int ts, .str "start_phase", .str "bar"]
      (stOpen "foo" onset pp xx yy tt fx fy fs fe bs be)) = true ∧
    epPhase (start_phase (cfgFil fl) [.str "MSG", .int ts, .str "start_phase", .str "bar"]
      (stOpen "foo" onset pp xx yy tt fx fy fs fe bs be)) = some none ∧
    epCol (start_phase (cfgFil fl) [.str "MSG", .int ts, .str "start_phase", .str "bar"]
      (stOpen "foo" onset pp xx yy tt fx fy fs fe bs be)) "ptrace_foo" =
      some (.series (pp.map FVal.num)) ∧
    epCol (start_phase (cfgFil fl) [.str "MSG", .int ts, .str "start_phase", .str "bar"]
      (stOpen "foo" onset pp xx yy tt fx fy fs fe bs be)) "t_offset_foo" =
      some (.scalar (.int ts)) ∧
    epCol (start_phase (cfgFil fl) [.str "MSG", .int ts, .str "start_phase", .str "bar"]
      (stOpen "foo" onset pp xx yy tt fx fy fs fe bs be)) "t_onset_bar" = none ∧
    ("Phase bar started while phase foo was still ongoing") ∈
      epWarns (start_phase (cfgFil fl) [.str "MSG", .int ts, .str "start_phase", .str "bar"]
      (stOpen "foo" onset pp xx yy tt fx fy fs fe bs be)) := by
  rcases tt with _ | ⟨a, tt⟩ <;> rcases fs with _ | ⟨b, fs⟩ <;> rcases fe with _ | ⟨c, fe⟩ <;>
    simp [start_phase, okFilter, cfgFil, hrej, pyStr, end_phase, endPhaseStep, stOpen,
      npArray_floats, npArray_nil, npArray_floats_cons, epOk, epCol, epPhase, epWarns,
      getCol, setCol, TrialDM.set, TrialDM.has, List.foldlM, cfgPlain,
      Except.instMonad, Except.bind, Except.pure, rebasePrefixes, FVal.subI, Function.comp, warn]

/-- Witness for C10: the always-rejecting filter with a concrete open
phase holding one pupil sample. -/
theorem C10_filter_forcecloses_witness :
    (fun (_ : String) => false) "bar" = false ∧
    epCol (start_phase (cfgFil fun _ => false)
        [.str "MSG", .int 7, .str "start_phase", .str "bar"]
        (stOpen "foo" 3 [9] [] [] [] [] [] [] [] [] [])) "ptrace_foo" =
      some (.series (([9] : List Rat).map FVal.num)) :=
  ⟨rfl, (C10_filter_forcecloses (fun _ => false) rfl 7 3 [9] [] [] [] [] [] [] [] [] []).2.2.1⟩

/-- CLAIM C5 as amended: when a file ends while a trial and its phase
foo are open, the trial is force-finalized: the phase is closed with
the trial-ended warning and the record with the traces accumulated so
far is returned, provided the finalization itself succeeds; it does
raise when the last line read has fewer than two tokens, as the
counterexample with a trailing empty line shows, since the forced
end_phase reads the timestamp field of that last line. Stated for a
trial whose last line is a well-formed five-token sample. -/
theorem C5_amended (t0 t1 : Int) (x y p : Rat) (ht : 0 < t1) (hp : p ≠ 0) :
    runErr (parse_file cfgPlain (c5log t0 t1 x y p)) = none ∧
    (runRecords (parse_file cfgPlain (c5log t0 t1 x y p))).map List.length = some 1 ∧
    recCol (parse_file cfgPlain (c5log t0 t1 x y p)) 0 "ttrace_foo" =
      some (.series [.num ((t1 : Rat) - (t0 : Rat))]) ∧
    recCol (parse_file cfgPlain (c5log t0 t1 x y p)) 0 "ptrace_foo" =
      some (.series [.num p]) ∧
    recCol (parse_file cfgPlain (c5log t0 t1 x y p)) 0 "xtrace_foo" =
      some (.series [.num x]) ∧
    runPhase (parse_file cfgPlain (c5log t0 t1 x y p)) = some none ∧
    ("Trial ended while phase foo was still ongoing") ∈
      runWarnings (parse_file cfgPlain (c5log t0 t1 x y p)) := by
  simp [parse_file, fileLoopF, parse_trial, trialLoop, parse_phase, parse_variable,
    parse_error, is_end_trial, is_start_trial, start_phase, end_phase, endPhaseStep,
    sample, Sample.isMatch, fixation, Fixation.isMatch, blink, Blink.isMatch,
    assertNumericOK, tokNumPos, isreal, pyEq, pymatch, posOK, isinst,
    ANY_VALUE, ANY_VALUES, startPhaseRef, endPhaseRef, varRef, startTrialRefX,
    startTrialRefI, endTrialRef, c5log, cfgPlain, okFilter, pyStr, getInt,
    npArray_nil, npArray_cons, npFloat, epOk, epCol, epPhase, epWarns, runErr, recCol,
    runPhase, runWarnings, runRecords, getCol, setCol, TrialDM.set, TrialDM.has,
    List.foldlM, Except.instMonad, Except.bind, Except.pure, rebasePrefixes,
    FVal.subI, Function.comp, warn, parse_sample, parse_fixation, parse_blink, ht, hp]

/-- Witness for C5: the amended theorem at a concrete file, with both
hypotheses discharged. -/
theorem C5_amended_witness :
    (0 : Int) < 100 ∧ (3 : Rat) ≠ 0 ∧
    recCol (parse_file cfgPlain (c5log 10 100 1 2 3)) 0 "ttrace_foo" =
      some (.series [.num ((100 : Rat) - (10 : Rat))]) :=
  ⟨by decide, by decide, (C5_amended 10 100 1 2 3 (by decide) (by decide)).2.2.1⟩

/-! ## Token-level lemmas for the event classifiers -/

/-- On split-produced tokens, fastnumbers.isreal agrees with being a
numeric token: the string tokens split leaves behind never spell a
finite real. -/
lemma isreal_eq_isNumTok (t : Token) (h : splitTok t = true) : isreal t = isNumTok t := by
  cases t <;> simp_all [isreal, splitTok, isNumTok]

/-- A strictly positive token is numeric. -/
lemma isNumTok_of_pos (t : Token) (h : tokNumPos t = true) : isNumTok t = true := by
  cases t <;> simp_all [tokNumPos, isNumTok]

/-- Python subtraction is defined on numeric tokens. -/
lemma pySub_isSome (a b : Token) (ha : isNumTok a = true) (hb : isNumTok b = true) :
    (pySub a b).isSome = true := by
  cases a <;> cases b <;> simp_all [pySub, isNumTok]

/-- CLAIM C7 as amended: for eight-token EFIX-shaped sequences made of
split-produced tokens, Fixation construction succeeds exactly when the
six positional fields (indices 2 through 7) are numeric tokens and,
only when the fastnumbers path is inactive, additionally strictly
positive; with fastnumbers active, realness alone is checked and signs
are ignored. Failure is reported as no match (none), never as an
uncaught exception. -/
theorem C7_amended (fn : Bool) (l : List Token) (h8 : l.length = 8)
    (hHead : l.headD (.str "") = .str "EFIX")
    (hsplit : ∀ t ∈ l, splitTok t = true) :
    (fixation fn l).isSome = true ↔
      ∀ i ∈ [2, 3, 4, 5, 6, 7],
        (fn = true → isNumTok (l.getD i (.str "")) = true) ∧
        (fn = false → tokNumPos (l.getD i (.str "")) = true) := by
  rcases l with _ | ⟨a0, _ | ⟨a1, _ | ⟨a2, _ | ⟨a3, _ | ⟨a4, _ | ⟨a5, _ | ⟨a6, _ | ⟨a7, _ | ⟨a8, l⟩⟩⟩⟩⟩⟩⟩⟩⟩ <;>
    simp only [List.length_cons, List.length_nil] at h8 <;> try omega
  simp only [List.headD_cons] at hHead
  subst hHead
  simp only [List.mem_cons, List.not_mem_nil] at hsplit
  have h2 : splitTok a2 = true := by apply hsplit; tauto
  have h3 : splitTok a3 = true := by apply hsplit; tauto
  have h4 : splitTok a4 = true := by apply hsplit; tauto
  have h5 : splitTok a5 = true := by apply hsplit; tauto
  have h6 : splitTok a6 = true := by apply hsplit; tauto
  have h7 : splitTok a7 = true := by apply hsplit; tauto
  cases fn with
  | true =>
    by_cases hassert : assertNumericOK true
        [.str "EFIX", a1, a2, a3, a4, a5, a6, a7] [2, 3, 4, 5, 6, 7] = true
    · have hn := hassert
      simp [assertNumericOK] at hn
      rw [isreal_eq_isNumTok a2 h2, isreal_eq_isNumTok a3 h3, isreal_eq_isNumTok a4 h4,
        isreal_eq_isNumTok a5 h5, isreal_eq_isNumTok a6 h6, isreal_eq_isNumTok a7 h7] at hn
      obtain ⟨n2, n3, n4, n5, n6, n7⟩ := hn
      have hsub := pySub_isSome a3 a2 n3 n2
      rcases hps : pySub a3 a2 with _ | d
      · rw [hps] at hsub; simp at hsub
      · simp [fixation, Fixation.isMatch, hassert, hps, List.getD, pyEq,
          n2, n3, n4, n5, n6, n7]
    · have hX : assertNumericOK true
          [.str "EFIX", a1, a2, a3, a4, a5, a6, a7] [2, 3, 4, 5, 6, 7] = false := by
        simpa using hassert
      simp [fixation, Fixation.isMatch, hX, List.getD, pyEq]
      intro hn2 hn3 hn4 hn5 hn6
      by_contra hn7
      rw [Bool.not_eq_false] at hn7
      simp [assertNumericOK, isreal_eq_isNumTok a2 h2, isreal_eq_isNumTok a3 h3,
        isreal_eq_isNumTok a4 h4, isreal_eq_isNumTok a5 h5, isreal_eq_isNumTok a6 h6,
        isreal_eq_isNumTok a7 h7, hn2, hn3, hn4, hn5, hn6, hn7] at hX
  | false =>
    by_cases hassert : assertNumericOK false
        [.str "EFIX", a1, a2, a3, a4, a5, a6, a7] [2, 3, 4, 5, 6, 7] = true
    · have hp := hassert
      simp [assertNumericOK] at hp
      obtain ⟨p2, p3, p4, p5, p6, p7⟩ := hp
      have hsub := pySub_isSome a3 a2 (isNumTok_of_pos a3 p3) (isNumTok_of_pos a2 p2)
      rcases hps : pySub a3 a2 with _ | d
      · rw [hps] at hsub; simp at hsub
      · simp [fixation, Fixation.isMatch, hassert, hps, List.getD, pyEq,
          p2, p3, p4, p5, p6, p7]
    · have hX : assertNumericOK false
          [.str "EFIX", a1, a2, a3, a4, a5, a6, a7] [2, 3, 4, 5, 6, 7] = false := by
        simpa using hassert
      simp [fixation, Fixation.isMatch, hX, List.getD, pyEq]
      intro hp2 hp3 hp4 hp5 hp6
      by_contra hp7
      rw [Bool.not_eq_false] at hp7
      simp [assertNumericOK, hp2, hp3, hp4, hp5, hp6, hp7] at hX

/-- Witness for C7: the amended characterization applied to the
all-negative EFIX line of the counterexample. -/
theorem C7_amended_witness :
    c7cex.length = 8 ∧ c7cex.headD (.str "") = .str "EFIX" ∧
    (∀ t ∈ c7cex, splitTok t = true) ∧
    ((fixation true c7cex).isSome = true ↔
      ∀ i ∈ [2, 3, 4, 5, 6, 7],
        (true = true → isNumTok (c7cex.getD i (.str "")) = true) ∧
        (true = false → tokNumPos (c7cex.getD i (.str "")) = true)) :=
  ⟨by decide, by decide, by decide,
    C7_amended true c7cex (by decide) (by decide) (by decide)⟩

/-! ## The trial-pairing lemmas for claim C3 -/

/-- parse_phase leaves the state alone on a non-message line while no
phase is open. -/
lemma parse_phase_inert (cfg : Config) (l : List Token) (st : PState)
    (h1 : pyEq (l.headD (.str "")) (.str "MSG") = false)
    (h2 : st.current_phase = none) : parse_phase cfg l st = .ok st := by
  cases l with
  | nil => simp [parse_phase, h2, pyEq]
  | cons a l =>
    simp only [List.headD_cons] at h1
    simp [parse_phase, h1, h2]

/-- The trial line loop walks over inert body lines unchanged and
breaks at the end_trial message, clearing the remembered trial id. -/
lemma trialLoop_good (cfg : Config) (body : List Line)
    (hgood : ∀ ln ∈ body, goodBody ln = true) :
    ∀ (st : PState) (lastl : Option (List Token)) (tail : List Line) (ets : Int),
      st.current_phase = none →
      trialLoop cfg st lastl
          (body ++ (⟨true, [.str "MSG", .int ets, .str "end_trial"]⟩ :: tail)) =
        .ok ({ st with trialid := none },
          some [.str "MSG", .int ets, .str "end_trial"], tail) := by
  induction body with
  | nil =>
    intro st lastl tail ets hphase
    simp [trialLoop, parse_error, pyEq, is_end_trial, pymatch, endTrialRef, posOK, isinst]
  | cons ln body ih =>
    intro st lastl tail ets hphase
    have hg := hgood ln (by simp)
    simp only [goodBody, Bool.and_eq_true, Bool.not_eq_true'] at hg
    obtain ⟨⟨⟨hmsg, hne⟩, hhead⟩, herr⟩ := hg
    have hne2 : ¬(ln.toks = []) := by
      intro h
      rw [h] at hne
      simp at hne
    simp only [List.cons_append, trialLoop]
    rw [if_neg (by simpa [List.isEmpty_iff] using hne2)]
    have herr2 : parse_error ln.toks st = (st, false) := by
      simp only [parse_error]
      rw [if_neg]
      intro hc
      rcases hc with ⟨hlen, hq⟩
      simp only [Bool.and_eq_false_iff] at herr
      rcases herr with h | h
      · simp [decide_eq_true hlen] at h
      · rw [hq] at h
        simp at h
    rw [herr2]
    simp only [hmsg, Bool.false_eq_true, if_false]
    rw [parse_phase_inert cfg ln.toks st hhead hphase]
    exact ih (fun l hl => hgood l (by simp [hl])) st (some ln.toks) tail ets hphase

/-- Every token is an instance of the ANY_VALUE type tuple. -/
lemma posOK_anyvalue (t : Token) : posOK t ANY_VALUE = true := by
  cases t <;> rfl

/-- Rendering a block list, one block at a time. -/
lemma renderBlocks_cons (b : Block) (bs : List Block) :
    renderBlocks (b :: bs) =
      hdrLine b.hdr :: (b.body ++
        (⟨true, [.str "MSG", .int b.endTs, .str "end_trial"]⟩ :: renderBlocks bs)) := by
  simp [renderBlocks, renderBlock]

/-- The file loop over rendered valid trial blocks: one fresh record
per block, carrying the explicit id when the header has one and 0
otherwise (the remembered id is cleared by every end_trial), with no
columns accumulated from inert body lines. -/
lemma fileLoop_blocks (cfg : Config) (hcfg : cfg.trialphase = none) :
    ∀ (bs : List Block) (fuel : Nat) (st : PState),
      (renderBlocks bs).length ≤ fuel →
      st.current_phase = none → st.trialid = none →
      (∀ b ∈ bs, ∀ ln ∈ b.body, goodBody ln = true) →
      ∃ stf, fileLoopF cfg fuel st (renderBlocks bs) =
          .ok (bs.map fun b =>
            { trialid := some (hdrId b.hdr), data_error := 0, cols := [] }, stf) ∧
        stf.current_phase = none ∧ stf.trialid = none := by
  intro bs
  induction bs with
  | nil =>
    intro fuel st _ hphase htid _
    refine ⟨st, ?_, hphase, htid⟩
    cases fuel <;> simp [renderBlocks, fileLoopF]
  | cons b bs ih =>
    intro fuel st hfuel hphase htid hgood
    rw [renderBlocks_cons] at hfuel ⊢
    rcases fuel with _ | f
    · simp at hfuel
    have hstart : ∃ st1, is_start_trial (hdrLine b.hdr).toks st = .ok (st1, true) ∧
        st1 = { st with trialid := some (hdrId b.hdr), current_phase := none } := by
      cases h : b.hdr with
      | explicitId ts id =>
        refine ⟨_, ?_, rfl⟩
        cases id <;>
          simp [hdrLine, hdrId, is_start_trial, pymatch, startTrialRefX, posOK, pyEq,
            isinst, ANY_VALUE, ANY_VALUES]
      | implicitId ts =>
        refine ⟨{ st with trialid := some (.int 0), current_phase := none }, ?_, ?_⟩
        · simp [hdrLine, is_start_trial, pymatch, startTrialRefX, startTrialRefI,
            posOK, pyEq, isinst, ANY_VALUE, ANY_VALUES, htid]
        · simp [hdrId]
    obtain ⟨st1, hst1, hst1eq⟩ := hstart
    have htrial : parse_trial cfg st1
        (b.body ++ (⟨true, [.str "MSG", .int b.endTs, .str "end_trial"]⟩ :: renderBlocks bs)) =
        .ok ({ st1 with trialdm := ⟨st1.trialid, 0, []⟩, trialid := none },
          renderBlocks bs) := by
      simp only [parse_trial, hcfg]
      rw [trialLoop_good cfg b.body (hgood b (by simp)) _ none _ b.endTs
        (by rw [hst1eq])]
      simp [hst1eq]
    have hmsg : (hdrLine b.hdr).msg = true := by
      cases b.hdr <;> rfl
    simp only [fileLoopF, hmsg, Bool.not_true, Bool.false_eq_true, if_false, hst1, htrial]
    have hlen : (renderBlocks bs).length ≤ f := by
      simp at hfuel
      omega
    obtain ⟨stf, hrec, hp, ht⟩ := ih f
      ({ st1 with trialdm := ⟨st1.trialid, 0, []⟩, trialid := none })
      hlen (by rw [hst1eq]) rfl (fun bb hb => hgood bb (by simp [hb]))
    rw [hrec]
    refine ⟨stf, ?_, hp, ht⟩
    simp [hst1eq, hdrId]

/-- CLAIM C3 as amended: for every sequence of valid start_trial and
end_trial pairs (with inert body lines and no auto-start trial phase
configured), exactly one trial record is produced per pair; a trial
whose start_trial carries an explicit id gets that id, and a trial with
a bare start_trial gets id 0, because is_end_trial clears the
remembered id at the end of every preceding trial, so the
previous-plus-one rule of is_start_trial never sees a remembered id in
a fully paired log. -/
theorem C3_amended (cfg : Config) (hcfg : cfg.trialphase = none) (bs : List Block)
    (hgood : ∀ b ∈ bs, ∀ ln ∈ b.body, goodBody ln = true) :
    ∃ stf, parse_file cfg (renderBlocks bs) =
      .ok (bs.map fun b =>
        { trialid := some (hdrId b.hdr), data_error := 0, cols := [] }, stf) := by
  obtain ⟨stf, h, _, _⟩ := fileLoop_blocks cfg hcfg bs (renderBlocks bs).length initState
    le_rfl rfl rfl hgood
  exact ⟨stf, h⟩

/-- Witness for C3: the amended theorem at three concrete blocks,
giving trial ids 0, 7 and 0. -/
theorem C3_amended_witness :
    cfgPlain.trialphase = none ∧
    (∀ b ∈ c3blocks, ∀ ln ∈ b.body, goodBody ln = true) ∧
    ∃ stf, parse_file cfgPlain (renderBlocks c3blocks) =
      .ok (c3blocks.map fun b =>
        { trialid := some (hdrId b.hdr), data_error := 0, cols := [] }, stf) :=
  ⟨rfl, by decide, C3_amended cfgPlain rfl c3blocks (by decide)⟩

end Elp
